import Mathlib

/-!
Shallow embedding of `tracert.py` (a minimal traceroute utility) and proofs
about its checksum/packet builder, probe transports, hop resolver, trace
orchestrator and CLI coercion layer.

Python machine integers are modelled as `Nat` (they are non-negative
throughout the program) with explicit `% 2^w` where the source masks with
`& 0xffffffff` / `& 0xffff`; `x >> 16` is `x / 65536`, `x & 0xffff` is
`x % 65536`, and for `x ≥ 0` Python's `~x & 0xffff` flips the low 16 bits,
i.e. equals `65535 - x % 65536`.  Fallible code returns `Option`/`Except`.
-/

namespace Tracert

/-! ## Checksum / packet builder (`checksum_calc`, lines 64-85) -/

/-- The `while count < count_to` loop of `checksum_calc` (lines 69-73).

In Python 3, `count_to = (len(source_string) / 2) * 2` is a *float* equal to
`len(source_string)` exactly, for even and odd lengths alike (true division:
`(7/2)*2 == 7.0`).  The loop reads `source_string[count+1]` and
`source_string[count]` with `count = 0, 2, 4, ...` while `count < count_to`,
so it walks the list two bytes at a time; when a single byte remains
(odd-length input) the read of `source_string[count+1]` with
`count + 1 = len(source_string)` raises `IndexError`, modelled as `none`.
Each addition is masked `& 0xffffffff` (line 72), i.e. `% 4294967296`. -/
def csLoop : List Nat → Nat → Option Nat
  | [], sum => some sum
  | [_], _ => none
  | lo :: hi :: rest, sum => csLoop rest ((sum + (hi * 256 + lo)) % 4294967296)

/-- `checksum_calc` (lines 64-85) over a byte string (each entry `< 256`),
returning `none` where the Python code raises `IndexError`.

After the pair loop, the guard `if count_to < len(source_string)` (line 75)
is never true since `count_to` equals the length exactly (see `csLoop`), so
the trailing-odd-byte addition (line 76) is dead code; it is kept verbatim.
Then (lines 79-84): `sum = (sum >> 16) + (sum & 0xffff)`;
`sum = sum + (sum >> 16)`; `answer = ~sum & 0xffff` (= `65535 - sum % 65536`
for non-negative `sum`); finally the two octets of `answer` are swapped:
`answer >> 8 | (answer << 8 & 0xff00)` = `answer / 256 + answer % 256 * 256`
(the two operands of `|` occupy disjoint octets since `answer < 65536`). -/
def checksum_calc (source_string : List Nat) : Option Nat :=
  match csLoop source_string 0 with
  | none => none
  | some sum0 =>
    let sum1 := if source_string.length < source_string.length
                then (sum0 + source_string.getLastD 0) % 4294967296
                else sum0
    let sum2 := sum1 / 65536 + sum1 % 65536
    let sum3 := sum2 + sum2 / 65536
    let answer := 65535 - sum3 % 65536
    some (answer / 256 + answer % 256 * 256)

/-- Sum of a byte string as 16-bit words formed from consecutive byte pairs
interpreted as `low_byte + high_byte * 256`, a trailing odd byte added alone
(the summation step of spec §4.1, with no 32-bit masking). -/
def sumWords : List Nat → Nat
  | [] => 0
  | [b] => b
  | lo :: hi :: rest => (lo + hi * 256) + sumWords rest

/-- Fold carries, `sum = (sum >> 16) + (sum & 0xFFFF)` repeated until the
sum fits in 16 bits (spec §4.1). -/
def foldCarries (n : Nat) : Nat :=
  if n < 65536 then n else foldCarries (n / 65536 + n % 65536)
termination_by n
decreasing_by
  simp_wf
  omega

/-- Modelled from the spec (§4.1): the checksum value `checksum_calc` is
specified to compute — sum 16-bit words low+high*256 with a trailing odd
byte alone, fold carries until the sum fits in 16 bits, take the one's
complement masked to 16 bits, then swap the two octets. -/
def spec_checksum (s : List Nat) : Nat :=
  let folded := foldCarries (sumWords s)
  let comp := 65535 - folded
  comp / 256 + comp % 256 * 256

/-- `struct.pack('BBHHH', b1, b2, h1, h2, h3)` on the little-endian host the
program runs on (native byte order, no padding between these fields): one
byte per `B`, two little-endian bytes per `H`.  `struct.pack` asserts the
ranges `b < 256`, `h < 65536`; the masks make the model total. -/
def pack_BBHHH (b1 b2 h1 h2 h3 : Nat) : List Nat :=
  [b1 % 256, b2 % 256,
   h1 % 256, h1 / 256 % 256,
   h2 % 256, h2 / 256 % 256,
   h3 % 256, h3 / 256 % 256]

/-- `socket.htons` on a little-endian host: swap the two octets of a 16-bit
value. -/
def htons (x : Nat) : Nat :=
  x % 256 * 256 + x / 256 % 256

/-! ## Probe transports (`trace_udp` lines 23-60, `trace_icmp` lines 87-124)

Each probe call is modelled as a pure function of a `NetEnv` recording the
outcomes of the system calls the probe performs, returning the Python
function's result — `Except` distinguishes a normal return from an uncaught
exception — together with a chronological log of the socket operations and
prints the call performed.  Sockets are numbered in order of acquisition
(`trace_icmp`: 0 = the raw ICMP socket; `trace_udp`: 0 = the raw ICMP
receive socket, 1 = the UDP send socket). -/

/-- The two literal messages the code prints on caught socket errors:
`"socket error occurred in Main query"` and `"socket error occurred in DNS"`. -/
inductive ErrMsg where
  | mainQuery
  | dnsLookup
deriving DecidableEq

/-- Observable effects of one probe call, in program order. -/
inductive Eff where
  | sockOpen (sock : Nat)
  | setTtl (sock : Nat) (ttl : Nat)
  | bindEv (sock : Nat) (bindPort : Nat)
  | sendtoEv (sock : Nat)
  | selectEv (timeout : Nat)
  | recvfromEv (sock : Nat) (bufsize : Nat)
  | closeEv (sock : Nat)
  | printEv (msg : ErrMsg)
deriving DecidableEq

/-- How a probe call exits when it does not return normally. -/
inductive PyErr where
  /-- an uncaught `socket.error` escaping the call (e.g. from `recvfrom`). -/
  | socketError
  /-- `UnboundLocalError`: reading `ready` after the `try` block failed
  before `select` assigned it. -/
  | unboundLocal
deriving DecidableEq

/-- Outcomes of the system calls a single probe performs. -/
structure NetEnv where
  /-- `sendto` succeeds; otherwise it raises `socket.error`. -/
  sendOk : Bool
  /-- `select.select` succeeds; otherwise it raises `socket.error`. -/
  selectOk : Bool
  /-- `select` returned a non-empty readable list (a datagram arrived in time). -/
  ready : Bool
  /-- `recvfrom` succeeds; otherwise it raises `socket.error`. -/
  recvOk : Bool
  /-- source address of the received datagram, as reported by `recvfrom`. -/
  recvAddr : String
  /-- `socket.gethostbyaddr(address)[0]`: `some name` on success, `none`
  when it raises `socket.error`. -/
  dns : Option String
deriving DecidableEq

/-- `trace_icmp(destination, ttl, timeout, print_errors)` (lines 87-124).
`id` is the random identifier `int(random.random() * 32000)` of line 92.
The packet built on lines 93-94 does not influence the result or the control
flow, but is constructed here as in the source.  Control flow:

* the `try` block spans **both** `sendto` and `select` (lines 97-102); if
  either raises `socket.error` the handler optionally prints, and then line
  108 reads the never-assigned local `ready`, raising `UnboundLocalError` —
  the socket is not closed on that exit;
* empty ready list ⇒ close the socket and return `('*', '*')`;
* otherwise `recvfrom(1024)` (an uncaught `socket.error` there escapes with
  the socket still open), the socket is closed, and `gethostbyaddr` with
  fallback to the raw address produces the name. -/
def trace_icmp (env : NetEnv) (destination : String) (ttl : Nat) (timeout : Nat)
    (print_errors : Bool) (id : Nat) : Except PyErr (String × String) × List Eff :=
  let log0 : List Eff := [.sockOpen 0, .setTtl 0 ttl]
  let packet := (checksum_calc (pack_BBHHH 8 0 0 id 1)).map
    (fun checksum => pack_BBHHH 8 0 (htons checksum) id 1)
  if env.sendOk = false then
    (.error .unboundLocal,
      log0 ++ [.sendtoEv 0] ++ (if print_errors then [.printEv .mainQuery] else []))
  else if env.selectOk = false then
    (.error .unboundLocal,
      log0 ++ [.sendtoEv 0, .selectEv timeout] ++
        (if print_errors then [.printEv .mainQuery] else []))
  else
    let log1 := log0 ++ [.sendtoEv 0, .selectEv timeout]
    if env.ready = false then
      (.ok ("*", "*"), log1 ++ [.closeEv 0])
    else if env.recvOk = false then
      (.error .socketError, log1 ++ [.recvfromEv 0 1024])
    else
      let address := env.recvAddr
      let log2 := log1 ++ [.recvfromEv 0 1024, .closeEv 0]
      match env.dns with
      | some address_name => (.ok (address, address_name), log2)
      | none =>
        (.ok (address, address),
          log2 ++ (if print_errors then [.printEv .dnsLookup] else []))

/-- `trace_udp(dest_addr, ttl, timeout, print_errors)` (lines 23-60).
Two sockets: the raw ICMP receive socket (0, bound to port 1) and the UDP
send socket (1, hop limit `ttl`, payload `'hello'`).  The `try` block again
spans `sendto` and `select`, with the same `UnboundLocalError` exit when one
of them raises; a timeout yields `('*', '*')`; otherwise `recvfrom(512)` on
the receive socket, reverse lookup with fallback, and both sockets are
closed (send socket first) just before the return — so an uncaught
`recvfrom` error leaves both sockets open. -/
def trace_udp (env : NetEnv) (dest_addr : String) (ttl : Nat) (timeout : Nat)
    (print_errors : Bool) : Except PyErr (String × String) × List Eff :=
  let log0 : List Eff := [.sockOpen 0, .sockOpen 1, .setTtl 1 ttl, .bindEv 0 1]
  if env.sendOk = false then
    (.error .unboundLocal,
      log0 ++ [.sendtoEv 1] ++ (if print_errors then [.printEv .mainQuery] else []))
  else if env.selectOk = false then
    (.error .unboundLocal,
      log0 ++ [.sendtoEv 1, .selectEv timeout] ++
        (if print_errors then [.printEv .mainQuery] else []))
  else
    let log1 := log0 ++ [.sendtoEv 1, .selectEv timeout]
    if env.ready = false then
      (.ok ("*", "*"), log1 ++ [.closeEv 1, .closeEv 0])
    else if env.recvOk = false then
      (.error .socketError, log1 ++ [.recvfromEv 0 512])
    else
      let address := env.recvAddr
      let log2 := log1 ++ [.recvfromEv 0 512]
      match env.dns with
      | some address_name =>
        (.ok (address, address_name), log2 ++ [.closeEv 1, .closeEv 0])
      | none =>
        (.ok (address, address),
          log2 ++ (if print_errors then [.printEv .dnsLookup] else []) ++
            [.closeEv 1, .closeEv 0])

/-- Hop resolver (spec §4.4), as inlined at lines 50-55 and 117-122:
`gethostbyaddr(address)[0]` guarded by `try/except socket.error`, any
failure falling back to the original address.  `dns` is the lookup outcome
as in `NetEnv.dns`. -/
def resolve (dns : Option String) (address : String) : String :=
  match dns with
  | some name => name
  | none => address

/-- Every socket the call opened is closed somewhere in its effect log. -/
def socketsClosed (log : List Eff) : Prop :=
  ∀ n, Eff.sockOpen n ∈ log → Eff.closeEv n ∈ log

/-! ## Trace orchestrator (`main`, lines 126-139) -/

/-- One printed hop: the enumerate counter `i`, the ttl probed, and the
`(answ, answ_name)` pair the transport returned. -/
structure HopRecord where
  index : Nat
  ttl : Nat
  addr : String
  name : String
deriving DecidableEq

/-- The body of `main`'s sweep, over the remaining `(i, ttl)` pairs of
`enumerate(range(1, max_steps + 1))`.  Each iteration invokes the selected
transport exactly once (`probe ttl` abstracts
`trace_funcs[t_type](dest_ip, ttl, timeout, print_errors)` as a function of
`ttl`, its delivered `(answ, answ_name)` pair), prints — emits — exactly one
hop record, and `break`s right after emitting a hop whose `answ` equals
`dest_ip` (string equality, line 137). -/
def tracerLoop (probe : Nat → String × String) (dest_ip : String) :
    List (Nat × Nat) → List HopRecord
  | [] => []
  | (i, ttl) :: rest =>
    let answ := probe ttl
    let record : HopRecord := ⟨i, ttl, answ.1, answ.2⟩
    if answ.1 = dest_ip then [record]
    else record :: tracerLoop probe dest_ip rest

/-- `main(dest_ip, timeout, max_steps, t_type, print_errors)` (lines
126-139), as the sequence of hop records it prints:
`for i, ttl in enumerate(range(1, max_steps + 1))` walks the pairs
`(i, i + 1)` for `i < max_steps`. -/
def main (probe : Nat → String × String) (dest_ip : String) (max_steps : Nat) :
    List HopRecord :=
  tracerLoop probe dest_ip ((List.range max_steps).map (fun i => (i, i + 1)))

/-! ## CLI coercion layer (`__main__`, lines 171-189) -/

/-- Lines 171-175: a missing timeout defaults to 1; a negative one is
coerced to 1 (`argparse` with `type=int` already guarantees an `int`, so the
`type(args.timeout) is not int` disjunct is never true). -/
def coerce_timeout : Option Int → Int
  | none => 1
  | some t => if t < 0 then 1 else t

/-- Lines 177-181: a missing max_steps defaults to 32; a negative one is
coerced to 32 (same dead `type(...) is not int` disjunct). -/
def coerce_max_steps : Option Int → Int
  | none => 32
  | some m => if m < 0 then 32 else m

/-- Lines 183-187: a missing protocol defaults to `'icmp'`; a value outside
`['icmp', 'udp']` is coerced to `'icmp'`. -/
def coerce_t_type : Option String → String
  | none => "icmp"
  | some s => if s = "icmp" ∨ s = "udp" then s else "icmp"

/-! ## Concrete environments and probes used by witnesses -/

/-- A probe in which everything succeeds and `10.0.0.7` answers. -/
def envAllOk : NetEnv := ⟨true, true, true, true, "10.0.0.7", some "router.local"⟩

/-- A probe whose `sendto` raises `socket.error`. -/
def envSendFail : NetEnv := ⟨false, true, true, true, "8.8.8.8", some "dns.google"⟩

/-- A probe that times out: `select` returns an empty ready list. -/
def envTimeout : NetEnv := ⟨true, true, false, true, "x", none⟩

/-- A probe-outcome sequence: hop 2 answers with the destination `9.9.9.9`,
every other hop with `1.1.1.1`. -/
def probeW : Nat → String × String :=
  fun ttl => if ttl = 2 then ("9.9.9.9", "gw") else ("1.1.1.1", "r1")

/-- A probe-outcome sequence in which every hop times out. -/
def probeStar : Nat → String × String := fun _ => ("*", "*")

/-! ## Checksum lemmas and theorems (claims C2, C3) -/

/-- Swapping the two octets of a 16-bit value twice is the identity. -/
lemma htons_swap (a : Nat) (ha : a < 65536) : htons (a / 256 + a % 256 * 256) = a := by
  unfold htons
  have h1 : a / 256 < 256 := by omega
  rw [Nat.add_mul_div_right _ _ (by norm_num : (0:ℕ) < 256),
      Nat.add_mul_mod_self_right, Nat.div_eq_of_lt h1, Nat.mod_eq_of_lt h1, Nat.zero_add]
  omega

/-- The 16-bit word sum of a packed `BBHHH` buffer. -/
lemma sumWords_pack (b1 b2 h1 h2 h3 : Nat) (hb1 : b1 < 256) (hb2 : b2 < 256)
    (hh1 : h1 < 65536) (hh2 : h2 < 65536) (hh3 : h3 < 65536) :
    sumWords (pack_BBHHH b1 b2 h1 h2 h3) = (b1 + b2 * 256) + h1 + h2 + h3 := by
  simp [sumWords, pack_BBHHH]
  omega

/-- The pair loop of `checksum_calc` on a packed `BBHHH` buffer computes the
16-bit word sum (the four adds never reach the 32-bit mask). -/
lemma csLoop_pack (b1 b2 h1 h2 h3 : Nat) (hb1 : b1 < 256) (hb2 : b2 < 256)
    (hh1 : h1 < 65536) (hh2 : h2 < 65536) (hh3 : h3 < 65536) :
    csLoop (pack_BBHHH b1 b2 h1 h2 h3) 0 = some ((b1 + b2 * 256) + h1 + h2 + h3) := by
  simp [csLoop, pack_BBHHH]
  omega

/-- `checksum_calc` on a packed `BBHHH` buffer whose word sum fits in 16 bits:
the carry folds are no-ops and the result is the byte-swapped complement of
the word sum. -/
lemma checksum_calc_pack (b1 b2 h1 h2 h3 : Nat) (hb1 : b1 < 256) (hb2 : b2 < 256)
    (hh1 : h1 < 65536) (hh2 : h2 < 65536) (hh3 : h3 < 65536)
    (hs : (b1 + b2 * 256) + h1 + h2 + h3 < 65536) :
    checksum_calc (pack_BBHHH b1 b2 h1 h2 h3) =
      some ((65535 - ((b1 + b2 * 256) + h1 + h2 + h3)) / 256 +
            (65535 - ((b1 + b2 * 256) + h1 + h2 + h3)) % 256 * 256) := by
  simp only [checksum_calc, csLoop_pack b1 b2 h1 h2 h3 hb1 hb2 hh1 hh2 hh3,
    lt_self_iff_false, if_false]
  simp only [Nat.div_eq_of_lt hs, Nat.mod_eq_of_lt hs, Nat.zero_add, Nat.add_zero]

/-- Claim C2: for every identifier used in a probe (`id = int(random.random()
* 32000)`, so `id < 32000`), the final 8-byte ICMP echo-request packet built
by `trace_icmp` — `struct.pack('BBHHH', 8, 0, htons(checksum), id, 1)` where
`checksum = checksum_calc(struct.pack('BBHHH', 8, 0, 0, id, 1))` — is
self-consistent: summing its 16-bit words (checksum field included) with the
low_byte + high_byte*256 one's-complement algorithm and folding carries
yields all ones (65535) before the complement, hence zero after it. -/
theorem icmp_packet_checksum_folds_to_all_ones (id : Nat) (hid : id < 32000) :
    ∃ c, checksum_calc (pack_BBHHH 8 0 0 id 1) = some c ∧
      foldCarries (sumWords (pack_BBHHH 8 0 (htons c) id 1)) = 65535 ∧
      65535 - foldCarries (sumWords (pack_BBHHH 8 0 (htons c) id 1)) = 0 := by
  have hA : 65535 - ((8 + 0 * 256) + 0 + id + 1) < 65536 := by omega
  refine ⟨(65535 - ((8 + 0 * 256) + 0 + id + 1)) / 256 +
          (65535 - ((8 + 0 * 256) + 0 + id + 1)) % 256 * 256,
      checksum_calc_pack 8 0 0 id 1 (by norm_num) (by norm_num) (by norm_num) (by omega)
        (by norm_num) (by omega), ?_⟩
  have h2 : sumWords (pack_BBHHH 8 0
      (htons ((65535 - ((8 + 0 * 256) + 0 + id + 1)) / 256 +
              (65535 - ((8 + 0 * 256) + 0 + id + 1)) % 256 * 256)) id 1) = 65535 := by
    rw [htons_swap _ hA, sumWords_pack 8 0 _ id 1 (by norm_num) (by norm_num) (by omega)
      (by omega) (by norm_num)]
    omega
  rw [h2]
  exact ⟨by simp [foldCarries], by simp [foldCarries]⟩

/-- Witness for C2 at the concrete identifier 7. -/
theorem icmp_packet_checksum_folds_to_all_ones_witness :
    ∃ c, checksum_calc (pack_BBHHH 8 0 0 7 1) = some c ∧
      foldCarries (sumWords (pack_BBHHH 8 0 (htons c) 7 1)) = 65535 ∧
      65535 - foldCarries (sumWords (pack_BBHHH 8 0 (htons c) 7 1)) = 0 :=
  icmp_packet_checksum_folds_to_all_ones 7 (by norm_num)

/-- Claim C3 (code bug): `checksum_calc` does not return the specified value
for every input byte string.  On any odd-length input the Python-3 code
raises `IndexError` instead of adding the trailing odd byte alone: the loop
bound `count_to = (len/2)*2` is a float equal to the full length, so the
pair loop reads one byte past the end, and the trailing-byte branch is dead
code.  At the failing input `[1, 2, 3]` the code crashes (`none`) while the
specified algorithm returns `64509`. -/
theorem checksum_calc_crashes_on_odd_length :
    checksum_calc [1, 2, 3] = none ∧ spec_checksum [1, 2, 3] = 64509 :=
  ⟨rfl, by simp [spec_checksum, sumWords, foldCarries]⟩

/-! ## Probe transport theorems (claims C4, C5, C6, C8) -/

/-- Counterexample to claim C4: on the send-time-socket-error exit path the
raw ICMP socket acquired by `trace_icmp` is *not* closed — the call leaves
by an uncaught `UnboundLocalError` with the socket still open. -/
theorem socket_left_open_on_send_error :
    Eff.sockOpen 0 ∈ (trace_icmp envSendFail "8.8.8.8" 3 1 false 0).2 ∧
    Eff.closeEv 0 ∉ (trace_icmp envSendFail "8.8.8.8" 3 1 false 0).2 ∧
    (trace_icmp envSendFail "8.8.8.8" 3 1 false 0).1 = .error .unboundLocal := by
  refine ⟨by decide, by decide, rfl⟩

/-- Claim C4, amended: on every probe call that *returns normally* (timeout,
received response, resolution failure) all sockets acquired by the call are
closed before it returns; but when `sendto`/`select` raise (caught, then
`UnboundLocalError`) or `recvfrom` raises (uncaught), the call exits by an
exception without closing its sockets. -/
theorem sockets_closed_on_normal_return (env : NetEnv) (dest : String)
    (ttl timeout : Nat) (pe : Bool) (id : Nat) :
    ((trace_icmp env dest ttl timeout pe id).1.isOk = true →
      socketsClosed (trace_icmp env dest ttl timeout pe id).2) ∧
    ((trace_udp env dest ttl timeout pe).1.isOk = true →
      socketsClosed (trace_udp env dest ttl timeout pe).2) := by
  obtain ⟨s, sel, r, rv, addr, dns⟩ := env
  constructor <;>
    (cases s <;> cases sel <;> cases r <;> cases rv <;> cases dns <;> cases pe <;>
      simp [trace_icmp, trace_udp, socketsClosed, Except.isOk, Except.toBool])

/-- Witness for the amended C4 at a concrete all-success environment: the
normally-returning ICMP probe closes its socket. -/
theorem sockets_closed_on_normal_return_witness :
    Eff.closeEv 0 ∈ (trace_icmp envAllOk "10.0.0.7" 1 1 false 0).2 :=
  (sockets_closed_on_normal_return envAllOk "10.0.0.7" 1 1 false 0).1
    (by decide) 0 (by decide)

/-- Counterexample to claim C5: when `sendto` raises a socket error, the
probe does not proceed to the bounded wait (no `select` call appears in the
log) and does not return a `ProbeResult` — it raises `UnboundLocalError`. -/
theorem send_error_skips_wait_and_raises :
    (trace_icmp envSendFail "8.8.8.8" 1 2 true 0).1 = .error .unboundLocal ∧
    Eff.selectEv 2 ∉ (trace_icmp envSendFail "8.8.8.8" 1 2 true 0).2 ∧
    Eff.printEv .mainQuery ∈ (trace_icmp envSendFail "8.8.8.8" 1 2 true 0).2 :=
  ⟨rfl, by decide, by decide⟩

/-- Claim C5, amended: a send-time socket error is caught (and logged
exactly when `verboseErrors` is set), but — the bounded wait living inside
the same `try` block — the wait step is skipped, and the subsequent read of
the never-assigned `ready` raises an uncaught `UnboundLocalError`, so the
probe does not complete with a `ProbeResult`.  Both transports behave
alike. -/
theorem send_error_caught_then_unbound_ready (env : NetEnv) (dest : String)
    (ttl timeout : Nat) (pe : Bool) (id : Nat) (hs : env.sendOk = false) :
    ((trace_icmp env dest ttl timeout pe id).1 = .error .unboundLocal ∧
     Eff.selectEv timeout ∉ (trace_icmp env dest ttl timeout pe id).2 ∧
     (Eff.printEv .mainQuery ∈ (trace_icmp env dest ttl timeout pe id).2 ↔ pe = true)) ∧
    ((trace_udp env dest ttl timeout pe).1 = .error .unboundLocal ∧
     Eff.selectEv timeout ∉ (trace_udp env dest ttl timeout pe).2 ∧
     (Eff.printEv .mainQuery ∈ (trace_udp env dest ttl timeout pe).2 ↔ pe = true)) := by
  obtain ⟨s, sel, r, rv, addr, dns⟩ := env
  obtain rfl : s = false := hs
  cases pe <;> simp [trace_icmp, trace_udp]

/-- Witness for the amended C5 at a concrete send-failure environment. -/
theorem send_error_caught_then_unbound_ready_witness :
    (trace_udp envSendFail "8.8.8.8" 1 5 true).1 = .error .unboundLocal ∧
    Eff.selectEv 5 ∉ (trace_udp envSendFail "8.8.8.8" 1 5 true).2 :=
  ⟨(send_error_caught_then_unbound_ready envSendFail "8.8.8.8" 1 5 true 0 rfl).2.1,
   (send_error_caught_then_unbound_ready envSendFail "8.8.8.8" 1 5 true 0 rfl).2.2.1⟩

/-- Counterexample to claim C8: `trace_udp` reads up to 512 bytes, not the
1024 bytes claimed (`recv_socket.recvfrom(512)`, line 48). -/
theorem udp_reads_512_not_1024 :
    Eff.recvfromEv 0 512 ∈ (trace_udp envAllOk "10.0.0.7" 1 1 false).2 ∧
    Eff.recvfromEv 0 1024 ∉ (trace_udp envAllOk "10.0.0.7" 1 1 false).2 := by
  refine ⟨by decide, by decide⟩

/-- Claim C8, amended: after sending, `trace_udp` performs the same
remaining steps as `trace_icmp` — bounded wait, timeout-vs-response
classification, reading the response (but with a 512-byte buffer where
`trace_icmp` uses 1024 — the buffer size does not affect the extracted
source address), name resolution with fallback, socket close before
returning normally, and the same error semantics — so given the same
observed network events the two transports produce the same result
(`ProbeResult` or exceptional exit). -/
theorem udp_icmp_same_probe_result (env : NetEnv) (dest : String)
    (ttl timeout : Nat) (pe : Bool) (id : Nat) :
    (trace_udp env dest ttl timeout pe).1 = (trace_icmp env dest ttl timeout pe id).1 := by
  obtain ⟨s, sel, r, rv, addr, dns⟩ := env
  cases s <;> cases sel <;> cases r <;> cases rv <;> cases dns <;>
    simp [trace_icmp, trace_udp]

/-! ## Hop resolver theorems (claim C7) -/

/-- Counterexample to claim C7: for the empty input address, a failed lookup
returns the empty string — the returned name is *not* always non-empty. -/
theorem resolve_empty_address_empty_name :
    resolve none "" = "" ∧ (resolve none "").length = 0 :=
  ⟨rfl, rfl⟩

/-- Claim C7, amended: reverse-name resolution never propagates an error —
on any lookup failure the original address is returned unchanged as the
name, and on success the looked-up name is returned — and the returned name
is non-empty whenever the input address is non-empty (an empty input
address is returned as an empty name on failure). -/
theorem resolve_total_fallback (a : String) :
    resolve none a = a ∧ (∀ n, resolve (some n) a = n) ∧
    (a ≠ "" → resolve none a ≠ "") :=
  ⟨rfl, fun _ => rfl, fun h => h⟩

/-- Witness for the amended C7 at the concrete address `1.2.3.4`. -/
theorem resolve_total_fallback_witness :
    resolve none "1.2.3.4" = "1.2.3.4" ∧ resolve none "1.2.3.4" ≠ "" :=
  ⟨(resolve_total_fallback "1.2.3.4").1,
   (resolve_total_fallback "1.2.3.4").2.2 (by decide)⟩

/-! ## Orchestrator lemmas and theorems (claims C1, C6, C10) -/

/-- The sweep never emits more records than it has `(i, ttl)` pairs. -/
lemma tracerLoop_length_le (probe : Nat → String × String) (dest_ip : String) :
    ∀ pairs : List (Nat × Nat), (tracerLoop probe dest_ip pairs).length ≤ pairs.length := by
  intro pairs
  induction pairs with
  | nil => simp [tracerLoop]
  | cons p rest ih =>
    obtain ⟨i, ttl⟩ := p
    simp only [tracerLoop]
    split
    · simp
    · simpa using ih

/-- The `k`-th emitted record comes from the `k`-th `(i, ttl)` pair and
carries that probe's answer. -/
lemma tracerLoop_get? (probe : Nat → String × String) (dest_ip : String) :
    ∀ (pairs : List (Nat × Nat)) (k : Nat) (r : HopRecord),
      (tracerLoop probe dest_ip pairs).get? k = some r →
      ∃ i t, pairs.get? k = some (i, t) ∧ r = ⟨i, t, (probe t).1, (probe t).2⟩ := by
  intro pairs
  induction pairs with
  | nil => intro k r h; simp [tracerLoop] at h
  | cons p rest ih =>
    intro k r h
    obtain ⟨i, ttl⟩ := p
    simp only [tracerLoop] at h
    by_cases hm : (probe ttl).1 = dest_ip
    · rw [if_pos hm] at h
      match k with
      | 0 =>
        simp at h
        exact ⟨i, ttl, by simp, h.symm⟩
      | k + 1 => simp at h
    · rw [if_neg hm] at h
      match k with
      | 0 =>
        simp at h
        exact ⟨i, ttl, by simp, h.symm⟩
      | k + 1 =>
        simp only [List.get?_cons_succ] at h ⊢
        exact ih k r h

/-- A record whose address equals the destination is the last one emitted. -/
lemma tracerLoop_stop (probe : Nat → String × String) (dest_ip : String) :
    ∀ (pairs : List (Nat × Nat)) (k : Nat) (r : HopRecord),
      (tracerLoop probe dest_ip pairs).get? k = some r → r.addr = dest_ip →
      (tracerLoop probe dest_ip pairs).length = k + 1 := by
  intro pairs
  induction pairs with
  | nil => intro k r h; simp [tracerLoop] at h
  | cons p rest ih =>
    intro k r h hr
    obtain ⟨i, ttl⟩ := p
    simp only [tracerLoop] at h ⊢
    by_cases hm : (probe ttl).1 = dest_ip
    · rw [if_pos hm] at h ⊢
      match k with
      | 0 => simp
      | k + 1 => simp at h
    · rw [if_neg hm] at h ⊢
      match k with
      | 0 =>
        simp at h
        rw [← h] at hr
        simp at hr
        exact absurd hr hm
      | k + 1 =>
        simp only [List.get?_cons_succ] at h
        simp [ih k r h hr]

/-- A sweep shorter than its pair list contains a record matching the
destination. -/
lemma tracerLoop_short_has_match (probe : Nat → String × String) (dest_ip : String) :
    ∀ pairs : List (Nat × Nat),
      (tracerLoop probe dest_ip pairs).length < pairs.length →
      ∃ k r, (tracerLoop probe dest_ip pairs).get? k = some r ∧ r.addr = dest_ip := by
  intro pairs
  induction pairs with
  | nil => intro h; simp [tracerLoop] at h
  | cons p rest ih =>
    intro h
    obtain ⟨i, ttl⟩ := p
    simp only [tracerLoop] at h ⊢
    by_cases hm : (probe ttl).1 = dest_ip
    · rw [if_pos hm]
      exact ⟨0, ⟨i, ttl, (probe ttl).1, (probe ttl).2⟩, by simp, hm⟩
    · rw [if_neg hm] at h ⊢
      simp only [List.length_cons, Nat.add_lt_add_iff_right] at h
      obtain ⟨k, r, hk, hr⟩ := ih h
      exact ⟨k + 1, r, by simpa using hk, hr⟩

/-- If none of the first `t` pairs' probes answers with the destination, the
sweep emits at least `min (t+1) pairs.length` records. -/
lemma tracerLoop_len_ge (probe : Nat → String × String) (dest_ip : String) :
    ∀ (pairs : List (Nat × Nat)) (t : Nat),
      (∀ q ∈ pairs.take t, (probe q.2).1 ≠ dest_ip) →
      min (t + 1) pairs.length ≤ (tracerLoop probe dest_ip pairs).length := by
  intro pairs
  induction pairs with
  | nil => intro t h; simp [tracerLoop]
  | cons p rest ih =>
    intro t h
    obtain ⟨i, ttl⟩ := p
    match t with
    | 0 =>
      simp only [tracerLoop, List.length_cons]
      split
      · simp
      · simp only [List.length_cons]
        omega
    | t + 1 =>
      simp only [List.take_succ_cons, List.mem_cons] at h
      have hm : (probe ttl).1 ≠ dest_ip := h (i, ttl) (Or.inl rfl)
      simp only [tracerLoop, if_neg hm, List.length_cons]
      have := ih t (fun q hq => h q (Or.inr hq))
      omega

/-- The `k`-th pair of `enumerate(range(1, n + 1))` is `(k, k + 1)`. -/
lemma enum_pairs_get? (n k : Nat) (q : Nat × Nat) :
    ((List.range n).map (fun i => (i, i + 1))).get? k = some q →
    q = (k, k + 1) ∧ k < n := by
  intro h
  rw [List.get?_map] at h
  rcases Option.map_eq_some'.mp h with ⟨a, ha, hfa⟩
  have hk : k < n := by
    by_contra hk
    rw [List.get?_eq_none.mpr (by simpa using Nat.le_of_not_lt hk)] at ha
    exact Option.noConfusion ha
  rw [List.get?_range hk] at ha
  obtain rfl : a = k := by injection ha with h2; omega
  exact ⟨hfa.symm, hk⟩

/-- The `k`-th record `main` emits has index `k`, ttl `k + 1`, and the
answer of the probe at ttl `k + 1`. -/
lemma main_get? (probe : Nat → String × String) (dest_ip : String) (max_steps k : Nat)
    (r : HopRecord) (h : (main probe dest_ip max_steps).get? k = some r) :
    r.index = k ∧ r.ttl = k + 1 ∧ r.addr = (probe (k + 1)).1 ∧
      r.name = (probe (k + 1)).2 ∧ k < max_steps := by
  obtain ⟨i, t, hp, hr⟩ := tracerLoop_get? probe dest_ip _ k r h
  obtain ⟨hq, hk⟩ := enum_pairs_get? max_steps k (i, t) hp
  obtain ⟨rfl, rfl⟩ : i = k ∧ t = k + 1 := by
    constructor <;> injection hq <;> simp_all
  subst hr
  exact ⟨rfl, rfl, rfl, rfl, hk⟩

/-- If the probes at ttl `1..t` all answer with something other than the
destination and `t < max_steps`, the sweep emits at least `t + 1` records —
it continues past hop `t`. -/
lemma main_continues (probe : Nat → String × String) (dest_ip : String)
    (max_steps t : Nat) (ht : t < max_steps)
    (hcont : ∀ j, 1 ≤ j → j ≤ t → (probe j).1 ≠ dest_ip) :
    t + 1 ≤ (main probe dest_ip max_steps).length := by
  have h := tracerLoop_len_ge probe dest_ip
    ((List.range max_steps).map (fun i => (i, i + 1))) t ?_
  · simpa [main, Nat.min_eq_left, Nat.succ_le_of_lt ht] using h
  · intro q hq
    rw [← List.map_take, List.take_range] at hq
    rcases List.mem_map.mp hq with ⟨a, ha, rfl⟩
    rw [List.mem_range] at ha
    exact hcont (a + 1) (by omega) (by omega)

/-- Claim C1: for every `max_steps ≥ 0` and every sequence of probe
outcomes, the orchestrator probes ttl `1..max_steps` in strictly increasing
order (record `k` carries ttl `k + 1` and exactly that probe's answer; each
loop iteration invokes the transport exactly once and emits exactly one
record), emits at most `max_steps` records, stops emitting immediately
after the first hop whose address string equals the destination string, is
strictly shorter than `max_steps` only when some emitted hop's address
equals the destination, and for `max_steps = 0` emits nothing and issues
zero probes. -/
theorem main_sweep_bounded_ordered_stops (probe : Nat → String × String)
    (dest_ip : String) (max_steps : Nat) :
    (main probe dest_ip max_steps).length ≤ max_steps ∧
    (∀ k r, (main probe dest_ip max_steps).get? k = some r →
      r.ttl = k + 1 ∧ r.addr = (probe (k + 1)).1 ∧ r.name = (probe (k + 1)).2) ∧
    (∀ k r, (main probe dest_ip max_steps).get? k = some r → r.addr = dest_ip →
      (main probe dest_ip max_steps).length = k + 1) ∧
    ((main probe dest_ip max_steps).length < max_steps →
      ∃ k r, (main probe dest_ip max_steps).get? k = some r ∧ r.addr = dest_ip) ∧
    main probe dest_ip 0 = [] := by
  refine ⟨?_, ?_, ?_, ?_, rfl⟩
  · simpa [main] using tracerLoop_length_le probe dest_ip
      ((List.range max_steps).map (fun i => (i, i + 1)))
  · intro k r h
    obtain ⟨_, h2, h3, h4, _⟩ := main_get? probe dest_ip max_steps k r h
    exact ⟨h2, h3, h4⟩
  · intro k r h hm
    exact tracerLoop_stop probe dest_ip _ k r h hm
  · intro h
    exact tracerLoop_short_has_match probe dest_ip _ (by simpa [main] using h)

/-- Witness for C1 with the concrete probe sequence `probeW` (destination
answers at ttl 2, `max_steps = 5`): the sweep emits exactly 2 records. -/
theorem main_sweep_bounded_ordered_stops_witness :
    (main probeW "9.9.9.9" 5).length ≤ 5 ∧ (main probeW "9.9.9.9" 5).length = 2 := by
  have h := main_sweep_bounded_ordered_stops probeW "9.9.9.9" 5
  exact ⟨h.1, h.2.2.1 1 ⟨1, 2, "9.9.9.9", "gw"⟩ (by decide) rfl⟩

/-- Claim C6: a probe in which `sendto` and `select` succeed but no readable
event arrives within the timeout returns the sentinel pair `("*", "*")` as
a normal (non-error) outcome, for both transports; and when the hops probed
so far all timed out (answer `("*", "*")`, destination not the sentinel),
the sweep continues with the next ttl (at least `t + 1` hops emitted). -/
theorem timeout_returns_star_and_sweep_continues (env : NetEnv) (dest : String)
    (ttl timeout : Nat) (pe : Bool) (id : Nat)
    (hs : env.sendOk = true) (hsel : env.selectOk = true) (hr : env.ready = false)
    (probe : Nat → String × String) (dest_ip : String) (max_steps t : Nat)
    (ht : t < max_steps) (hstar : ∀ j, 1 ≤ j → j ≤ t → probe j = ("*", "*"))
    (hdest : dest_ip ≠ "*") :
    (trace_icmp env dest ttl timeout pe id).1 = .ok ("*", "*") ∧
    (trace_udp env dest ttl timeout pe).1 = .ok ("*", "*") ∧
    t + 1 ≤ (main probe dest_ip max_steps).length := by
  refine ⟨?_, ?_, main_continues probe dest_ip max_steps t ht ?_⟩
  · obtain ⟨s, sel, r, rv, addr, dns⟩ := env
    simp_all [trace_icmp]
  · obtain ⟨s, sel, r, rv, addr, dns⟩ := env
    simp_all [trace_udp]
  · intro j h1 h2
    rw [hstar j h1 h2]
    exact fun hc => hdest hc.symm

/-- Witness for C6: concrete timeout environment, all-timeout probe
sequence, `t = 1 < max_steps = 3`. -/
theorem timeout_returns_star_and_sweep_continues_witness :
    (trace_icmp envTimeout "10.0.0.7" 1 1 false 0).1 = .ok ("*", "*") ∧
    (trace_udp envTimeout "10.0.0.7" 1 1 false).1 = .ok ("*", "*") ∧
    1 + 1 ≤ (main probeStar "9.9.9.9" 3).length :=
  timeout_returns_star_and_sweep_continues envTimeout "10.0.0.7" 1 1 false 0
    rfl rfl rfl probeStar "9.9.9.9" 3 1 (by norm_num)
    (fun _ _ _ => rfl) (by decide)

/-- Claim C10: every emitted hop record has index equal to its probe's ttl
minus 1 — indices start at 0 while the first probed ttl is 1 — and the
index of the `k`-th record is exactly `k`, so indices increase by 1 with no
gaps or repeats on every iteration of the sweep. -/
theorem hop_index_eq_ttl_minus_one (probe : Nat → String × String)
    (dest_ip : String) (max_steps : Nat) :
    ∀ k r, (main probe dest_ip max_steps).get? k = some r →
      r.index = r.ttl - 1 ∧ r.index = k ∧ r.ttl = k + 1 := by
  intro k r h
  obtain ⟨h1, h2, _, _, _⟩ := main_get? probe dest_ip max_steps k r h
  omega

/-- Witness for C10 at the concrete sweep `main probeW "9.9.9.9" 5`,
record 0. -/
theorem hop_index_eq_ttl_minus_one_witness :
    (main probeW "9.9.9.9" 5).get? 0 = some ⟨0, 1, "1.1.1.1", "r1"⟩ ∧
    ((0 : Nat) = 1 - 1 ∧ (0 : Nat) = 0 ∧ (1 : Nat) = 0 + 1) :=
  ⟨by decide,
   hop_index_eq_ttl_minus_one probeW "9.9.9.9" 5 0 ⟨0, 1, "1.1.1.1", "r1"⟩ (by decide)⟩

/-! ## CLI coercion theorems (claim C9) -/

/-- Claim C9: before the core `main` is called, a missing or negative
timeout is coerced to 1, a missing or negative max_steps is coerced to 32,
and a protocol outside `{icmp, udp}` is coerced to `icmp`; hence the core
never observes a negative timeout or max_steps or an unknown protocol, and
a caller-supplied timeout of `-5` reaches the core as 1. -/
theorem cli_coercion_defaults :
    coerce_timeout none = 1 ∧ (∀ t : Int, t < 0 → coerce_timeout (some t) = 1) ∧
    (∀ o, 0 ≤ coerce_timeout o) ∧
    coerce_max_steps none = 32 ∧ (∀ m : Int, m < 0 → coerce_max_steps (some m) = 32) ∧
    (∀ o, 0 ≤ coerce_max_steps o) ∧
    (∀ o, coerce_t_type o = "icmp" ∨ coerce_t_type o = "udp") ∧
    (∀ s, s ≠ "icmp" → s ≠ "udp" → coerce_t_type (some s) = "icmp") ∧
    coerce_timeout (some (-5)) = 1 := by
  refine ⟨rfl, ?_, ?_, rfl, ?_, ?_, ?_, ?_, rfl⟩
  · intro t ht
    simp [coerce_timeout, if_pos ht]
  · intro o
    match o with
    | none => norm_num [coerce_timeout]
    | some t =>
      simp only [coerce_timeout]
      split <;> omega
  · intro m hm
    simp [coerce_max_steps, if_pos hm]
  · intro o
    match o with
    | none => norm_num [coerce_max_steps]
    | some m =>
      simp only [coerce_max_steps]
      split <;> omega
  · intro o
    match o with
    | none => exact Or.inl rfl
    | some s =>
      simp only [coerce_t_type]
      split
      · tauto
      · exact Or.inl rfl
  · intro s h1 h2
    simp [coerce_t_type, h1, h2]

/-- Witness for C9 at the concrete CLI inputs `timeout = -5`,
`max_steps = -3`, `t_type = "tcp"`. -/
theorem cli_coercion_defaults_witness :
    coerce_timeout (some (-5)) = 1 ∧ coerce_max_steps (some (-3)) = 32 ∧
    coerce_t_type (some "tcp") = "icmp" :=
  ⟨cli_coercion_defaults.2.1 (-5) (by norm_num),
   cli_coercion_defaults.2.2.2.2.1 (-3) (by norm_num),
   cli_coercion_defaults.2.2.2.2.2.2.2.1 "tcp" (by decide) (by decide)⟩

end Tracert
